import Mathlib

/-!
Verification of the Lebanon visa application form filler
(src/fill_visa_form.py and src/field_config.py).

The program overlays text and checkbox marks onto a fixed PDF template.
We embed it shallowly:

* applicant records (parsed JSON) become the inductive type `JValue`;
* a PDF page becomes the list of draw operations (`Op`) performed on it,
  in the order the program performs them;
* the external environment (translation backend, Arabic shaping libraries,
  installed fonts, and the `VISA_TYPE_LABELS` table that
  `fill_visa_form.py` imports but whose definition is absent from
  src/field_config.py) becomes the structure `Env`;
* Python exceptions become `Option`: a function that can raise returns
  `none` exactly where the Python code would raise.
-/

/-- A parsed JSON value, as manipulated by the Python code.  Python dicts
become association lists (keys are unique in the inputs we consider, and
lookup takes the first binding, as `dict` lookup does for unique keys). -/
inductive JValue where
  | str (s : String)
  | int (n : Int)
  | bool (b : Bool)
  | null
  | obj (fields : List (String × JValue))

/-- Python truthiness (`if value:`) for the values of `JValue`. -/
def JValue.truthy : JValue → Bool
  | .str s => s ≠ ""
  | .int n => n ≠ 0
  | .bool b => b
  | .null => false
  | .obj l => !l.isEmpty

mutual

/-- Python `repr` of a value, used by `str` on nested structures. -/
def pyRepr : JValue → String
  | JValue.str s => "'" ++ s ++ "'"
  | JValue.int n => toString n
  | JValue.bool b => if b then "True" else "False"
  | JValue.null => "None"
  | JValue.obj l => "\x7b" ++ pyReprFields l ++ "\x7d"

/-- Python `repr` of the fields of a dict, comma separated. -/
def pyReprFields : List (String × JValue) → String
  | [] => ""
  | [(k, v)] => "'" ++ k ++ "': " ++ pyRepr v
  | (k, v) :: rest => "'" ++ k ++ "': " ++ pyRepr v ++ ", " ++ pyReprFields rest

end

/-- Python `str(value)`, applied by `fill_text_fields` before writing. -/
def pyStr : JValue → String
  | JValue.str s => s
  | v => pyRepr v

/-- Python `str.lower()` (ASCII case mapping, which covers every string
the tables and claims use), written with structural recursion so that
terms evaluate definitionally. -/
def pyLower (s : String) : String := String.mk (s.data.map Char.toLower)

/-- Python `str.upper()` (ASCII case mapping), structural. -/
def pyUpper (s : String) : String := String.mk (s.data.map Char.toUpper)

/-- Python `str.strip()`: remove leading and trailing whitespace,
written with structural recursion so that terms evaluate definitionally. -/
def pyStrip (s : String) : String :=
  String.mk
    (((s.data.dropWhile Char.isWhitespace).reverse.dropWhile
      Char.isWhitespace).reverse)

/-- Python `path.split(".")` on the character list of the path,
structural: every `'.'` starts a new segment. -/
def splitOnDotChars : List Char → List (List Char)
  | [] => [[]]
  | c :: rest =>
      let r := splitOnDotChars rest
      if c = '.' then [] :: r
      else
        match r with
        | [] => [[c]]
        | g :: gs => (c :: g) :: gs

/-- Python `path.split(".")` (fill_visa_form.py line 62). -/
def splitOnDot (s : String) : List String :=
  (splitOnDotChars s.data).map String.mk

/-- First-binding association-list lookup, the semantics of both Python
`key in dict` / `dict[key]` (for the unique-key dicts of field_config.py)
and, on the record side, of dict indexing inside `get_nested_value`. -/
def lookupStr {α : Type} : List (String × α) → String → Option α
  | [], _ => none
  | (k, v) :: rest, s => if s = k then some v else lookupStr rest s

/-- Python `value.get(key, default)`.  Raises (returns `none`) when the
receiver is not a dict, exactly as Python raises `AttributeError`. -/
def dictGet (v : JValue) (k : String) (default : JValue) : Option JValue :=
  match v with
  | JValue.obj l =>
      match lookupStr l k with
      | some w => some w
      | none => some default
  | _ => none

/-- The segment-by-segment traversal loop of `get_nested_value`
(fill_visa_form.py lines 62-69): at each key, if the current value is a
dict containing the key, descend, otherwise return `None`. -/
def getNestedGo : List String → JValue → Option JValue
  | [], v => some v
  | k :: ks, v =>
      match v with
      | JValue.obj l =>
          match lookupStr l k with
          | some w => getNestedGo ks w
          | none => none
      | _ => none

/-- `get_nested_value(data, path)` (fill_visa_form.py lines 57-69):
split the dotted path and traverse.  `none` is Python's `None`. -/
def get_nested_value (data : JValue) (path : String) : Option JValue :=
  getNestedGo (splitOnDot path) data

-- ===== field_config.py constants =====

/-- `FONT_NAME = "helv"` (field_config.py line 10). -/
def FONT_NAME : String := "helv"

/-- `FONT_SIZE = 9` (field_config.py line 11). -/
def FONT_SIZE : Nat := 9

/-- `CHECKBOX_CHAR = "X"` (field_config.py line 12). -/
def CHECKBOX_CHAR : String := "X"

/-- `CHECKBOX_FONT_SIZE = 10` (field_config.py line 13). -/
def CHECKBOX_FONT_SIZE : Nat := 10

/-- The `FIELD_COORDINATES` table exactly as written in
src/field_config.py lines 18-142. -/
def FIELD_COORDINATES_src : List (String × Int × Int) :=
  [("first_name", 67, 154),
   ("middle_name", 198, 154),
   ("last_name", 323, 154),
   ("place_of_birth", 72, 178),
   ("dob", 198, 188),
   ("mobile", 328, 178),
   ("present_nationality", 72, 210),
   ("nationality_of_origin", 198, 210),
   ("email", 328, 210),
   ("passport_number", 72, 238),
   ("issuing_country", 198, 238),
   ("passport_expiry", 328, 248),
   ("uae_address", 72, 270),
   ("checkbox_female", 380, 259),
   ("checkbox_male", 415, 259),
   ("home_phone", 459, 270),
   ("visa_refusal_details", 72, 307),
   ("job_title", 328, 298),
   ("uae_residency_expiry", 328, 323),
   ("checkbox_single", 364, 347),
   ("checkbox_married", 357, 366),
   ("checkbox_divorced", 435, 348),
   ("checkbox_widowed", 433, 366),
   ("lebanon_previous_visits", 72, 402),
   ("trip_start_date", 328, 393),
   ("trip_end_date", 420, 393),
   ("criminal_record_details", 72, 460),
   ("checkbox_business", 339, 415),
   ("checkbox_education", 339, 424),
   ("checkbox_tourism", 337, 433),
   ("checkbox_family_visit", 337, 443),
   ("checkbox_official", 337, 452),
   ("checkbox_other_purpose", 337, 460),
   ("other_purpose_text", 430, 460),
   ("contact_person", 72, 482),
   ("lebanon_address", 72, 507),
   ("arrival_date", 72, 544),
   ("departure_date", 328, 544),
   ("checkbox_single_entry", 68, 577),
   ("checkbox_two_entry", 68, 599),
   ("checkbox_multiple_entry", 68, 620),
   ("checkbox_15_days", 272, 575),
   ("checkbox_one_month", 354, 575),
   ("checkbox_three_months", 271, 584),
   ("checkbox_six_months", 353, 583),
   ("signature_date", 295, 644),
   ("accompanied_by_arabic", 450, 750)]

/-- Modelled from the spec: src/field_config.py as shipped lacks the
`visa_type_label` coordinate that fill_visa_form.py lines 292-297 look up
(together with the `VISA_TYPE_LABELS` and `BOTTOM_LABEL_FONT_SIZE` names
that fill_visa_form.py imports from it, so the shipped file is a
truncated version of the real one).  Spec 4.1 says the visa-type label
is "written at a distinct coordinate"; we extend the table with one
entry at a coordinate distinct from every other used coordinate. -/
def FIELD_COORDINATES : List (String × Int × Int) :=
  FIELD_COORDINATES_src ++ [("visa_type_label", 60, 700)]

/-- `key in FIELD_COORDINATES` followed by `FIELD_COORDINATES[key]`. -/
def lookupCoord (key : String) : Option (Int × Int) :=
  lookupStr FIELD_COORDINATES key

/-- `CHECKBOX_MAPPINGS["visa_type"]` (field_config.py lines 167-174). -/
def CHECKBOX_MAPPINGS_visa_type : List (String × String) :=
  [("single_entry", "checkbox_single_entry"),
   ("single", "checkbox_single_entry"),
   ("two_entry", "checkbox_two_entry"),
   ("double", "checkbox_two_entry"),
   ("multiple_entry", "checkbox_multiple_entry"),
   ("multiple", "checkbox_multiple_entry")]

/-- `CHECKBOX_MAPPINGS["visa_duration"]` (field_config.py lines 175-187). -/
def CHECKBOX_MAPPINGS_visa_duration : List (String × String) :=
  [("15_days", "checkbox_15_days"),
   ("15 days", "checkbox_15_days"),
   ("one_month", "checkbox_one_month"),
   ("1_month", "checkbox_one_month"),
   ("1 month", "checkbox_one_month"),
   ("three_months", "checkbox_three_months"),
   ("3_months", "checkbox_three_months"),
   ("3 months", "checkbox_three_months"),
   ("six_months", "checkbox_six_months"),
   ("6_months", "checkbox_six_months"),
   ("6 months", "checkbox_six_months")]

/-- `TEXT_FIELD_MAPPINGS` (field_config.py lines 191-220), in source
order (Python dicts iterate in insertion order). -/
def TEXT_FIELD_MAPPINGS : List (String × String) :=
  [("personal_info.first_name", "first_name"),
   ("personal_info.middle_name", "middle_name"),
   ("personal_info.last_name", "last_name"),
   ("personal_info.place_of_birth", "place_of_birth"),
   ("personal_info.date_of_birth", "dob"),
   ("personal_info.mobile", "mobile"),
   ("personal_info.present_nationality", "present_nationality"),
   ("personal_info.nationality_of_origin", "nationality_of_origin"),
   ("passport_info.passport_number", "passport_number"),
   ("passport_info.issuing_country", "issuing_country"),
   ("passport_info.expiry_date", "passport_expiry"),
   ("residence_info.uae_address", "uae_address"),
   ("residence_info.uae_residency_expiry", "uae_residency_expiry"),
   ("travel_history.visa_refusal_details", "visa_refusal_details"),
   ("travel_history.lebanon_previous_visits", "lebanon_previous_visits"),
   ("travel_history.criminal_record_details", "criminal_record_details"),
   ("trip_info.start_date", "trip_start_date"),
   ("trip_info.end_date", "trip_end_date"),
   ("trip_info.other_purpose", "other_purpose_text"),
   ("trip_info.arrival_date", "arrival_date"),
   ("trip_info.departure_date", "departure_date"),
   ("accommodation_info.contact_person", "contact_person"),
   ("accommodation_info.lebanon_address", "lebanon_address"),
   ("signature_date", "signature_date"),
   ("accompanied_by_arabic", "accompanied_by_arabic")]

/-- `ARABIC_ACCOMPANIED_BY_PREFIX` (field_config.py line 223), the fixed
Arabic literal (with its two trailing spaces) prepended to the
accompanying person's name. -/
def ARABIC_ACCOMPANIED_BY_PREF : String := "ﺑﻤﺮاﻓﻘﺔ  "

/-- Modelled from the spec: `BOTTOM_LABEL_FONT_SIZE` is imported by
fill_visa_form.py line 53 but missing from src/field_config.py; the spec
only says it is "the distinct font size", so we fix a value distinct
from `FONT_SIZE`. -/
def BOTTOM_LABEL_FONT_SIZE : Nat := 7

-- ===== page model =====

/-- A font request passed to `page.insert_text`: an optional font file
path plus a logical font name, as in the `font_attempts` list. -/
structure FontConfig where
  fontfile : Option String
  fontname : String
deriving DecidableEq, Repr

/-- The built-in base font request (`fontname="helv"`, no font file). -/
def helvCfg : FontConfig := ⟨none, FONT_NAME⟩

/-- One draw operation performed on the page, in program order:
`page.insert_text` or `page.draw_rect` (the only two primitives the
program uses; color is always black resp. white fill and is omitted). -/
inductive Op where
  | insertText (x y : Int) (text : String) (font : FontConfig) (size : Nat)
  | drawRect (x y w h : Int)
deriving DecidableEq, Repr

/-- `insert_text` (fill_visa_form.py lines 94-107): writes only when the
text is non-empty and non-blank (`if text and text.strip():`). -/
def insert_text (x y : Int) (text : String) (fontsize : Nat) : List Op :=
  if text ≠ "" ∧ pyStrip text ≠ "" then
    [Op.insertText x y text helvCfg fontsize]
  else []

/-- `insert_checkbox` (fill_visa_form.py lines 110-119): always draws
the `X` glyph at the given point at the checkbox font size. -/
def insert_checkbox (x y : Int) : Op :=
  Op.insertText x y CHECKBOX_CHAR helvCfg CHECKBOX_FONT_SIZE

/-- `redact_area` (fill_visa_form.py lines 122-126): draw a white-filled
rectangle covering the given area. -/
def redact_area (x y width height : Int) : List Op :=
  [Op.drawRect x y width height]

/-- `redact_existing_dates` (fill_visa_form.py lines 129-134). -/
def redact_existing_dates : List Op :=
  redact_area 328 382 215 12

-- ===== environment for external capabilities =====

/-- The external world the program runs against: whether the optional
translation / Arabic-shaping libraries imported at module load succeeded,
the behaviour of the translation backend (`Except.error` is a raised
exception), the reshaping and bidi functions, which font requests
`page.insert_text` accepts (fonts installed on the machine), and the
`VISA_TYPE_LABELS` table.  The table is modelled from the spec: it is
imported by fill_visa_form.py line 52 but its definition is missing from
src/field_config.py; the spec only says it maps visa-type strings to
pricing/category labels, so we keep it abstract here and instantiate it
concretely in witnesses. -/
structure Env where
  translationSupport : Bool
  arabicSupport : Bool
  translate : String → Except String String
  reshape : String → String
  bidi : String → String
  insertOk : FontConfig → Bool
  visaTypeLabels : List (String × String)

-- ===== checkbox filling =====

/-- The visa-type string computed by `fill_checkboxes`
(fill_visa_form.py lines 144-147): `data.get("visa_info", {})` then
`visa.get("type", "").lower()`.  `none` models the exceptions Python
raises when `data` or the `visa_info` value is not a dict, or the type
value is a non-string (no `.lower()` attribute). -/
def visa_type_of (data : JValue) : Option String := do
  let visa ← dictGet data "visa_info" (JValue.obj [])
  let tv ← dictGet visa "type" (JValue.str "")
  match tv with
  | JValue.str s => some (pyLower s)
  | _ => none

/-- The draw operations `fill_checkboxes` performs for a given
lowercased visa-type string (fill_visa_form.py lines 148-165): the
visa-type checkbox when the value is recognized, then the duration
checkbox derived from the type (six months for multiple entry,
three months otherwise). -/
def checkbox_ops_for_type (visa_type : String) : List Op :=
  (match lookupStr CHECKBOX_MAPPINGS_visa_type visa_type with
   | some checkbox_key =>
       match lookupCoord checkbox_key with
       | some xy => [insert_checkbox xy.1 xy.2]
       | none => []
   | none => []) ++
  (let visa_duration :=
     if visa_type = "multiple_entry" ∨ visa_type = "multiple" then
       "six_months"
     else
       "three_months"
   match lookupStr CHECKBOX_MAPPINGS_visa_duration visa_duration with
   | some checkbox_key =>
       match lookupCoord checkbox_key with
       | some xy => [insert_checkbox xy.1 xy.2]
       | none => []
   | none => [])

/-- `fill_checkboxes` (fill_visa_form.py lines 137-165). -/
def fill_checkboxes (data : JValue) : Option (List Op) :=
  (visa_type_of data).map checkbox_ops_for_type

-- ===== translation and Arabic text =====

/-- `translate_to_arabic` (fill_visa_form.py lines 168-184): returns the
original text when the translation library is unavailable, when the text
is empty or blank, or when the translation call raises. -/
def translate_to_arabic (env : Env) (text : String) : String :=
  if !env.translationSupport then text
  else if text = "" ∨ pyStrip text = "" then text
  else
    match env.translate text with
    | Except.ok translated => translated
    | Except.error _ => text

/-- `reshape_arabic_text` (fill_visa_form.py lines 187-195): reshape and
reorder when the shaping libraries are available, else pass through. -/
def reshape_arabic_text (env : Env) (text : String) : String :=
  if env.arabicSupport then env.bidi (env.reshape text) else text

/-- The `font_attempts` list of `insert_arabic_text`
(fill_visa_form.py lines 206-217), in order of preference. -/
def font_attempts : List FontConfig :=
  [⟨some "/System/Library/Fonts/GeezaPro.ttc", "GeezaPro"⟩,
   ⟨some "/System/Library/Fonts/SFArabic.ttf", "SFArabic"⟩,
   ⟨some "/usr/share/fonts/truetype/dejavu/DejaVuSans.ttf", "DejaVuSans"⟩,
   ⟨some "/usr/share/fonts/truetype/liberation/LiberationSans-Regular.ttf",
    "LiberationSans"⟩,
   ⟨some "/usr/share/fonts/truetype/noto/NotoSansArabic-Regular.ttf",
    "NotoSansArabic"⟩,
   ⟨some "/usr/share/fonts/truetype/freefont/FreeSans.ttf", "FreeSans"⟩,
   ⟨none, "figo"⟩]

/-- The candidate loop of `insert_arabic_text` (fill_visa_form.py lines
219-236): try each font in order, catching the exception of each failed
attempt, and stop at the first success. -/
def tryFontAttempts (env : Env) : List FontConfig → Option FontConfig
  | [] => none
  | c :: rest => if env.insertOk c then some c else tryFontAttempts env rest

/-- `insert_arabic_text` (fill_visa_form.py lines 198-251): reshape the
text, try the candidate fonts in order, and if all fail make one final
attempt with the base font, catching its exception too.  The result is
the list of draw operations that succeeded (one or none); the function
itself is total — no exception escapes it. -/
def insert_arabic_text (env : Env) (x y : Int) (text : String)
    (fontsize : Nat) : List Op :=
  if text ≠ "" ∧ pyStrip text ≠ "" then
    let display_text := reshape_arabic_text env text
    match tryFontAttempts env font_attempts with
    | some c => [Op.insertText x y display_text c fontsize]
    | none =>
        if env.insertOk helvCfg then
          [Op.insertText x y display_text helvCfg fontsize]
        else []
  else []

-- ===== text fields =====

/-- One iteration of the `TEXT_FIELD_MAPPINGS` loop of
`fill_text_fields` (fill_visa_form.py lines 256-260): resolve the dotted
path, and when the value is truthy and the coordinate key exists, write
`str(value)` there at the default size. -/
def text_field_entry (data : JValue) (pf : String × String) : List Op :=
  match get_nested_value data pf.1 with
  | some v =>
      if v.truthy then
        match lookupCoord pf.2 with
        | some xy => insert_text xy.1 xy.2 (pyStr v) FONT_SIZE
        | none => []
      else []
  | none => []

/-- The whole `TEXT_FIELD_MAPPINGS` loop, in table order. -/
def text_loop_ops (data : JValue) : List Op :=
  TEXT_FIELD_MAPPINGS.flatMap (text_field_entry data)

/-- The `departure_date_from_dubai` duplication block
(fill_visa_form.py lines 262-270): one source value written to both the
`trip_start_date` and `arrival_date` coordinates. -/
def departure_dubai_ops (data : JValue) : List Op :=
  match get_nested_value data "trip_info.departure_date_from_dubai" with
  | some v =>
      if v.truthy then
        (match lookupCoord "trip_start_date" with
         | some xy => insert_text xy.1 xy.2 (pyStr v) FONT_SIZE
         | none => []) ++
        (match lookupCoord "arrival_date" with
         | some xy => insert_text xy.1 xy.2 (pyStr v) FONT_SIZE
         | none => [])
      else []
  | none => []

/-- The `arrival_date_to_dubai` duplication block
(fill_visa_form.py lines 272-280): one source value written to both the
`trip_end_date` and `departure_date` coordinates. -/
def arrival_dubai_ops (data : JValue) : List Op :=
  match get_nested_value data "trip_info.arrival_date_to_dubai" with
  | some v =>
      if v.truthy then
        (match lookupCoord "trip_end_date" with
         | some xy => insert_text xy.1 xy.2 (pyStr v) FONT_SIZE
         | none => []) ++
        (match lookupCoord "departure_date" with
         | some xy => insert_text xy.1 xy.2 (pyStr v) FONT_SIZE
         | none => [])
      else []
  | none => []

/-- The `accompany_name` block (fill_visa_form.py lines 282-288):
translate the name, prepend the fixed Arabic literal, and write it with
`insert_arabic_text` at the bottom-label size.  `none` models the
exception Python raises on a truthy non-string name (string
concatenation with the literal, or `.strip()` inside the translator). -/
def accompany_ops (env : Env) (data : JValue) : Option (List Op) :=
  match get_nested_value data "accompany_name" with
  | some v =>
      if v.truthy ∧ (lookupCoord "accompanied_by_arabic").isSome then
        match v with
        | JValue.str s =>
            let translated_name := translate_to_arabic env s
            let arabic_text := ARABIC_ACCOMPANIED_BY_PREF ++ translated_name
            match lookupCoord "accompanied_by_arabic" with
            | some xy =>
                some (insert_arabic_text env xy.1 xy.2 arabic_text
                  BOTTOM_LABEL_FONT_SIZE)
            | none => some []
        | _ => none
      else some []
  | none => some []

/-- The visa-type pricing-label block (fill_visa_form.py lines 290-297):
lowercase the visa type, look it up in `VISA_TYPE_LABELS`, and when it
matches write the label at the `visa_type_label` coordinate at the
bottom-label size.  `none` models the exception on a truthy non-string
type (no `.lower()` attribute). -/
def visa_label_ops (env : Env) (data : JValue) : Option (List Op) :=
  match get_nested_value data "visa_info.type" with
  | some v =>
      if v.truthy ∧ (lookupCoord "visa_type_label").isSome then
        match v with
        | JValue.str s =>
            match lookupStr env.visaTypeLabels (pyLower s) with
            | some label_text =>
                match lookupCoord "visa_type_label" with
                | some xy =>
                    some (insert_text xy.1 xy.2 label_text
                      BOTTOM_LABEL_FONT_SIZE)
                | none => some []
            | none => some []
        | _ => none
      else some []
  | none => some []

/-- `fill_text_fields` (fill_visa_form.py lines 254-297): the mapping
loop, the two date-duplication blocks, the accompany block and the
visa-label block, in program order. -/
def fill_text_fields (env : Env) (data : JValue) : Option (List Op) := do
  let acc ← accompany_ops env data
  let lab ← visa_label_ops env data
  pure (text_loop_ops data ++ departure_dubai_ops data ++
    arrival_dubai_ops data ++ acc ++ lab)

-- ===== full name and document generation =====

/-- `extract_full_name` (fill_visa_form.py lines 78-91): collect the
first, middle and last name parts, keep the truthy ones not equal to
"N/A" case-insensitively, and join with single spaces.  `none` models
the exceptions on non-dict containers or truthy non-string parts
(no `.upper()` attribute). -/
def pyNamePartFilter : List JValue → Option (List String)
  | [] => some []
  | v :: rest =>
      if v.truthy then
        match v with
        | JValue.str s =>
            if pyUpper s ≠ "N/A" then
              (pyNamePartFilter rest).map (s :: ·)
            else pyNamePartFilter rest
        | _ => none
      else pyNamePartFilter rest

/-- `extract_full_name` (fill_visa_form.py lines 78-91). -/
def extract_full_name (data : JValue) : Option String := do
  let personal ← dictGet data "personal_info" (JValue.obj [])
  let first_name ← dictGet personal "first_name" (JValue.str "")
  let middle_name ← dictGet personal "middle_name" (JValue.str "")
  let last_name ← dictGet personal "last_name" (JValue.str "")
  let name_parts ← pyNamePartFilter [first_name, middle_name, last_name]
  pure (String.intercalate " " name_parts)

/-- `generate_filled_pdf_bytes` (fill_visa_form.py lines 300-338): the
draw operations performed on page 0, in program order — redaction of the
pre-printed dates first, then checkboxes, then text fields — paired with
the extracted full name. -/
def generate_filled_pdf_bytes (env : Env) (data : JValue) :
    Option (List Op × String) := do
  let cb ← fill_checkboxes data
  let tf ← fill_text_fields env data
  let full_name ← extract_full_name data
  pure (redact_existing_dates ++ cb ++ tf, full_name)

-- ===== helper lemmas =====

theorem lookupStr_mem {α : Type} {l : List (String × α)} {s : String} {v : α}
    (h : lookupStr l s = some v) : (s, v) ∈ l := by
  induction l with
  | nil => simp [lookupStr] at h
  | cons hd tl ih =>
      obtain ⟨k, w⟩ := hd
      simp only [lookupStr] at h
      by_cases heq : s = k
      · rw [if_pos heq] at h
        injection h with h'
        subst heq
        subst h'
        exact List.mem_cons_self _ _
      · rw [if_neg heq] at h
        exact List.mem_cons_of_mem _ (ih h)

-- ===== C1: checkbox selection =====

/-- The three visa-type checkbox marks, at the coordinates of
`checkbox_single_entry`, `checkbox_two_entry`, `checkbox_multiple_entry`. -/
def typeMarks : List Op :=
  [insert_checkbox 68 577, insert_checkbox 68 599, insert_checkbox 68 620]

/-- The four visa-duration checkbox marks, at the coordinates of
`checkbox_15_days`, `checkbox_one_month`, `checkbox_three_months`,
`checkbox_six_months`. -/
def durationMarks : List Op :=
  [insert_checkbox 272 575, insert_checkbox 354 575,
   insert_checkbox 271 584, insert_checkbox 353 583]

/-- How many visa-type checkboxes a list of operations marks. -/
def countTypeMarks (ops : List Op) : Nat :=
  ops.countP (fun op => typeMarks.contains op)

/-- How many visa-duration checkboxes a list of operations marks. -/
def countDurationMarks (ops : List Op) : Nat :=
  ops.countP (fun op => durationMarks.contains op)

/-- C1: for every record on which `fill_checkboxes` runs without raising,
exactly one duration checkbox is marked — the six-month one
(`checkbox_six_months`, at (353, 583)) exactly when the lowercased
visa-type is "multiple_entry" or "multiple", the three-month one
(`checkbox_three_months`, at (271, 584)) otherwise, including when the
type is absent (lowercased value "") or unrecognized — and exactly one
visa-type checkbox is marked when the lowercased type is in
`CHECKBOX_MAPPINGS["visa_type"]`, none when it is not. -/
theorem c1_fill_checkboxes_marks (data : JValue) (t : String)
    (h : visa_type_of data = some t) :
    ∃ ops, fill_checkboxes data = some ops ∧
      countDurationMarks ops = 1 ∧
      ((t = "multiple_entry" ∨ t = "multiple") →
        insert_checkbox 353 583 ∈ ops) ∧
      (¬(t = "multiple_entry" ∨ t = "multiple") →
        insert_checkbox 271 584 ∈ ops) ∧
      ((lookupStr CHECKBOX_MAPPINGS_visa_type t).isSome →
        countTypeMarks ops = 1) ∧
      (lookupStr CHECKBOX_MAPPINGS_visa_type t = none →
        countTypeMarks ops = 0) := by
  refine ⟨checkbox_ops_for_type t, by simp [fill_checkboxes, h], ?_⟩
  rcases hl : lookupStr CHECKBOX_MAPPINGS_visa_type t with _ | k
  · by_cases hc : t = "multiple_entry" ∨ t = "multiple"
    · rcases hc with hc | hc <;> subst hc <;>
        simp [CHECKBOX_MAPPINGS_visa_type, lookupStr] at hl
    · have hops : checkbox_ops_for_type t = [insert_checkbox 271 584] := by
        unfold checkbox_ops_for_type
        rw [hl, if_neg hc]
        rfl
      rw [hops]
      exact ⟨by decide, fun hmul => absurd hmul hc, fun _ => by decide,
        fun hs => absurd hs (by decide), fun _ => by decide⟩
  · have hmem := lookupStr_mem hl
    simp only [CHECKBOX_MAPPINGS_visa_type, List.mem_cons,
      List.not_mem_nil, or_false, Prod.mk.injEq] at hmem
    rcases hmem with ⟨ht, hk⟩ | ⟨ht, hk⟩ | ⟨ht, hk⟩ | ⟨ht, hk⟩ |
      ⟨ht, hk⟩ | ⟨ht, hk⟩ <;> subst ht <;> subst hk <;> decide

/-- Concrete record with `visa_info.type = "Multiple"` for the witness. -/
def c1Data : JValue :=
  JValue.obj [("visa_info", JValue.obj [("type", JValue.str "Multiple")])]

theorem c1_fill_checkboxes_marks_witness :
    ∃ ops, fill_checkboxes c1Data = some ops ∧
      countDurationMarks ops = 1 ∧
      (("multiple" = "multiple_entry" ∨ "multiple" = "multiple") →
        insert_checkbox 353 583 ∈ ops) ∧
      (¬("multiple" = "multiple_entry" ∨ "multiple" = "multiple") →
        insert_checkbox 271 584 ∈ ops) ∧
      ((lookupStr CHECKBOX_MAPPINGS_visa_type "multiple").isSome →
        countTypeMarks ops = 1) ∧
      (lookupStr CHECKBOX_MAPPINGS_visa_type "multiple" = none →
        countTypeMarks ops = 0) :=
  c1_fill_checkboxes_marks c1Data "multiple" (by decide)

-- ===== C4: translation failure falls back to the original text =====

/-- C4: `translate_to_arabic` returns the original input text unchanged
whenever the translation capability is unavailable or the external
translation call raises; the function is total (failures of the call are
modelled as `Except.error` inside it), so no exception propagates out of
it or out of the fill operation. -/
theorem c4_translate_fallback (env : Env) (text : String)
    (h : env.translationSupport = false ∨
      ∃ e, env.translate text = Except.error e) :
    translate_to_arabic env text = text := by
  rcases h with h | ⟨e, he⟩
  · simp [translate_to_arabic, h]
  · by_cases hs : env.translationSupport
    · by_cases hempty : text = "" ∨ pyStrip text = ""
      · simp [translate_to_arabic, hs, hempty]
      · simp [translate_to_arabic, hs, hempty, he]
    · simp [translate_to_arabic, hs]

/-- Environment whose translation backend always raises. -/
def c4Env : Env :=
  { translationSupport := true
    arabicSupport := false
    translate := fun _ => Except.error "network error"
    reshape := id
    bidi := id
    insertOk := fun _ => false
    visaTypeLabels := [] }

theorem c4_translate_fallback_witness :
    translate_to_arabic c4Env "John Smith" = "John Smith" :=
  c4_translate_fallback c4Env "John Smith" (Or.inr ⟨"network error", rfl⟩)

-- ===== C3: font fallback chain =====

theorem tryFontAttempts_some {env : Env} {l : List FontConfig}
    {c : FontConfig} (h : tryFontAttempts env l = some c) :
    ∃ pre post, l = pre ++ c :: post ∧ env.insertOk c = true ∧
      ∀ c' ∈ pre, env.insertOk c' = false := by
  induction l with
  | nil => simp [tryFontAttempts] at h
  | cons hd tl ih =>
      simp only [tryFontAttempts] at h
      by_cases hok : env.insertOk hd
      · rw [if_pos hok] at h
        injection h with h'
        subst h'
        exact ⟨[], tl, rfl, hok, by simp⟩
      · rw [if_neg hok] at h
        simp only [Bool.not_eq_true] at hok
        obtain ⟨pre, post, heq, hc, hpre⟩ := ih h
        refine ⟨hd :: pre, post, by rw [heq]; rfl, hc, ?_⟩
        intro c' hc'
        rcases List.mem_cons.mp hc' with rfl | hmem
        · exact hok
        · exact hpre c' hmem

theorem tryFontAttempts_none {env : Env} {l : List FontConfig}
    (h : tryFontAttempts env l = none) :
    ∀ c ∈ l, env.insertOk c = false := by
  induction l with
  | nil => simp
  | cons hd tl ih =>
      simp only [tryFontAttempts] at h
      by_cases hok : env.insertOk hd
      · rw [if_pos hok] at h
        cases h
      · rw [if_neg hok] at h
        simp only [Bool.not_eq_true] at hok
        intro c hc
        rcases List.mem_cons.mp hc with rfl | hmem
        · exact hok
        · exact ih h c hmem

/-- C3: on non-blank text, `insert_arabic_text` tries the font
candidates strictly in their listed order and draws with the first one
that succeeds; if every candidate fails it makes exactly one further
attempt with the base font `helv`, and if that too fails it draws
nothing — in every case it returns normally (it is a total function
into a plain list of operations, so a font failure never aborts the
fill). -/
theorem c3_font_fallback_chain (env : Env) (x y : Int) (text : String)
    (fontsize : Nat) (h : text ≠ "" ∧ pyStrip text ≠ "") :
    (∃ pre c post, font_attempts = pre ++ c :: post ∧
       env.insertOk c = true ∧ (∀ c' ∈ pre, env.insertOk c' = false) ∧
       insert_arabic_text env x y text fontsize =
         [Op.insertText x y (reshape_arabic_text env text) c fontsize]) ∨
    ((∀ c ∈ font_attempts, env.insertOk c = false) ∧
     ((env.insertOk helvCfg = true ∧
        insert_arabic_text env x y text fontsize =
          [Op.insertText x y (reshape_arabic_text env text) helvCfg
            fontsize]) ∨
      (env.insertOk helvCfg = false ∧
        insert_arabic_text env x y text fontsize = []))) := by
  unfold insert_arabic_text
  rw [if_pos h]
  rcases ht : tryFontAttempts env font_attempts with _ | c
  · right
    refine ⟨tryFontAttempts_none ht, ?_⟩
    by_cases hh : env.insertOk helvCfg
    · left
      exact ⟨hh, by simp [hh]⟩
    · right
      refine ⟨by simpa using hh, by simp [hh]⟩
  · left
    obtain ⟨pre, post, heq, hc, hpre⟩ := tryFontAttempts_some ht
    exact ⟨pre, c, post, heq, hc, hpre, rfl⟩

/-- Environment with no optional capability: translation and shaping
libraries absent, every font request refused, no label table. -/
def envNone : Env :=
  { translationSupport := false
    arabicSupport := false
    translate := fun _ => Except.error "offline"
    reshape := id
    bidi := id
    insertOk := fun _ => false
    visaTypeLabels := [] }

theorem c3_font_fallback_chain_witness :
    (∃ pre c post, font_attempts = pre ++ c :: post ∧
       envNone.insertOk c = true ∧
       (∀ c' ∈ pre, envNone.insertOk c' = false) ∧
       insert_arabic_text envNone 450 750 "abc" 7 =
         [Op.insertText 450 750 (reshape_arabic_text envNone "abc") c 7]) ∨
    ((∀ c ∈ font_attempts, envNone.insertOk c = false) ∧
     ((envNone.insertOk helvCfg = true ∧
        insert_arabic_text envNone 450 750 "abc" 7 =
          [Op.insertText 450 750 (reshape_arabic_text envNone "abc")
            helvCfg 7]) ∨
      (envNone.insertOk helvCfg = false ∧
        insert_arabic_text envNone 450 750 "abc" 7 = []))) :=
  c3_font_fallback_chain envNone 450 750 "abc" 7 ⟨by decide, by decide⟩

-- ===== C8: redaction precedes every other draw =====

/-- C8: in every successful fill, the white-rectangle redaction of the
pre-printed date region is the very first draw operation performed on
the page: no checkbox mark, text write, or any other draw precedes it. -/
theorem c8_redact_first (env : Env) (data : JValue) (ops : List Op)
    (full_name : String)
    (h : generate_filled_pdf_bytes env data = some (ops, full_name)) :
    ∃ rest, ops = Op.drawRect 328 382 215 12 :: rest := by
  simp only [generate_filled_pdf_bytes, bind, Option.bind_eq_some,
    pure, Option.some.injEq, Prod.mk.injEq] at h
  obtain ⟨cb, hcb, tf, htf, fn, hfn, hops, hname⟩ := h
  exact ⟨cb ++ tf, by rw [← hops]; rfl⟩

theorem c8_redact_first_witness :
    ∃ rest, [Op.drawRect 328 382 215 12, insert_checkbox 271 584] =
      Op.drawRect 328 382 215 12 :: rest :=
  c8_redact_first envNone (JValue.obj [])
    [Op.drawRect 328 382 215 12, insert_checkbox 271 584] "" (by decide)

-- ===== C6: full-name extraction =====

theorem pyNamePartFilter_strs (ss : List String) :
    pyNamePartFilter (ss.map JValue.str) =
      some (ss.filter (fun s => decide (s ≠ "" ∧ pyUpper s ≠ "N/A"))) := by
  induction ss with
  | nil => rfl
  | cons s rest ih =>
      simp only [List.map_cons, pyNamePartFilter, JValue.truthy,
        List.filter]
      by_cases hs : s = ""
      · subst hs
        simp [ih]
      · by_cases hu : pyUpper s = "N/A"
        · simp [hs, hu, ih]
        · simp [hs, hu, ih]

/-- C6: `extract_full_name` reads the first, middle and last name parts
from `personal_info` (with `""` standing in for an absent part), drops
every part that is empty or equals "N/A" case-insensitively, and joins
the remaining parts with single spaces. -/
theorem c6_extract_full_name (data pers : JValue) (f m l : String)
    (hp : dictGet data "personal_info" (JValue.obj []) = some pers)
    (hf : dictGet pers "first_name" (JValue.str "") = some (JValue.str f))
    (hm : dictGet pers "middle_name" (JValue.str "") = some (JValue.str m))
    (hl : dictGet pers "last_name" (JValue.str "") = some (JValue.str l)) :
    extract_full_name data =
      some (String.intercalate " "
        ([f, m, l].filter (fun s => decide (s ≠ "" ∧ pyUpper s ≠ "N/A")))) := by
  have hfilter := pyNamePartFilter_strs [f, m, l]
  simp only [List.map] at hfilter
  simp [extract_full_name, hp, hf, hm, hl, hfilter]

/-- The `personal_info` dict of the C6 witness record. -/
def c6Pers : JValue :=
  JValue.obj [("first_name", JValue.str "Ali"),
              ("middle_name", JValue.str "N/A"),
              ("last_name", JValue.str "Haddad")]

/-- Record with first="Ali", middle="N/A", last="Haddad". -/
def c6Data : JValue := JValue.obj [("personal_info", c6Pers)]

theorem c6_extract_full_name_witness :
    extract_full_name c6Data = some "Ali Haddad" :=
  (c6_extract_full_name c6Data c6Pers "Ali" "N/A" "Haddad"
    rfl rfl rfl rfl).trans (by decide)

-- ===== C2: skip-on-missing traversal =====

theorem getNestedGo_append (l₁ l₂ : List String) (v : JValue) :
    getNestedGo (l₁ ++ l₂) v = (getNestedGo l₁ v).bind (getNestedGo l₂) := by
  induction l₁ generalizing v with
  | nil => simp [getNestedGo]
  | cons k ks ih =>
      cases v with
      | str s => simp [getNestedGo]
      | int n => simp [getNestedGo]
      | bool b => simp [getNestedGo]
      | null => simp [getNestedGo]
      | obj l =>
          rcases hw : lookupStr l k with _ | w
          · simp [getNestedGo, hw]
          · simp [getNestedGo, hw, ih]

/-- C2: for every (dotted path, field name) pair of the text-field
mapping, if traversal of the record fails at any segment — the value
reached so far is not a dict, or the segment key is absent from it —
then `get_nested_value` returns `None`, that field writes nothing, and
the loop's whole output comes from the other pairs, so the fill
completes for the remaining fields with no error. -/
theorem c2_missing_path_skipped (data : JValue) (p f : String)
    (_hmem : (p, f) ∈ TEXT_FIELD_MAPPINGS)
    (ks₁ : List String) (k : String) (ks₂ : List String)
    (hsplit : splitOnDot p = ks₁ ++ k :: ks₂)
    (v : JValue) (hv : getNestedGo ks₁ data = some v)
    (hfail : (∀ l, v ≠ JValue.obj l) ∨
      ∃ l, v = JValue.obj l ∧ lookupStr l k = none) :
    get_nested_value data p = none ∧
    text_field_entry data (p, f) = [] ∧
    ∀ op ∈ text_loop_ops data, ∃ q ∈ TEXT_FIELD_MAPPINGS,
      q ≠ (p, f) ∧ op ∈ text_field_entry data q := by
  have hnone : get_nested_value data p = none := by
    unfold get_nested_value
    rw [hsplit, getNestedGo_append, hv]
    simp only [Option.some_bind]
    rcases hfail with hnd | ⟨l, rfl, hlk⟩
    · match v, hnd with
      | JValue.str s, _ => rfl
      | JValue.int n, _ => rfl
      | JValue.bool b, _ => rfl
      | JValue.null, _ => rfl
      | JValue.obj l, hnd => exact absurd rfl (hnd l)
    · simp [getNestedGo, hlk]
  have hentry : text_field_entry data (p, f) = [] := by
    unfold text_field_entry
    rw [hnone]
  refine ⟨hnone, hentry, ?_⟩
  intro op hop
  obtain ⟨q, hq, hopq⟩ := List.mem_flatMap.mp hop
  refine ⟨q, hq, ?_, hopq⟩
  intro hqeq
  rw [hqeq, hentry] at hopq
  exact List.not_mem_nil op hopq

/-- Record whose `personal_info` is a string, so that traversal of
"personal_info.first_name" fails at the second segment. -/
def c2Data : JValue := JValue.obj [("personal_info", JValue.str "oops")]

theorem c2_missing_path_skipped_witness :
    get_nested_value c2Data "personal_info.first_name" = none ∧
    text_field_entry c2Data ("personal_info.first_name", "first_name") = [] ∧
    ∀ op ∈ text_loop_ops c2Data,
      ∃ q ∈ TEXT_FIELD_MAPPINGS,
        q ≠ ("personal_info.first_name", "first_name") ∧
        op ∈ text_field_entry c2Data q :=
  c2_missing_path_skipped c2Data "personal_info.first_name" "first_name"
    (by decide) ["personal_info"] "first_name" [] (by decide)
    (JValue.str "oops") rfl
    (Or.inl (fun l h => JValue.noConfusion h))

-- ===== C10: falsy values write nothing =====

/-- C10: a mapped record path whose value is present but falsy under
Python truthiness (the integer 0, False, "", None, an empty dict) — or a
whitespace-only string, which passes the truthiness gate but is blanked
by `insert_text`'s strip check — contributes no write for that field,
exactly as when the path is absent from the record. -/
theorem c10_falsy_value_skipped (data : JValue) (p f : String)
    (_hmem : (p, f) ∈ TEXT_FIELD_MAPPINGS) (v : JValue)
    (hv : get_nested_value data p = some v)
    (hfalsy : v.truthy = false ∨ ∃ s, v = JValue.str s ∧ pyStrip s = "") :
    text_field_entry data (p, f) = [] ∧
    ∀ data' : JValue, get_nested_value data' p = none →
      text_field_entry data' (p, f) = [] := by
  constructor
  · unfold text_field_entry
    rw [hv]
    rcases hfalsy with hfal | ⟨s, rfl, hws⟩
    · simp [hfal]
    · by_cases htr : (JValue.str s).truthy
      · rcases hc : lookupCoord f with _ | xy
        · simp [htr, hc]
        · simp [htr, hc, insert_text, pyStr, hws]
      · simp [htr]
  · intro data' hd
    unfold text_field_entry
    rw [hd]

/-- Record whose `personal_info.first_name` is the integer 0. -/
def c10Data : JValue :=
  JValue.obj [("personal_info", JValue.obj [("first_name", JValue.int 0)])]

theorem c10_falsy_value_skipped_witness :
    text_field_entry c10Data ("personal_info.first_name", "first_name") =
      [] :=
  (c10_falsy_value_skipped c10Data "personal_info.first_name" "first_name"
    (by decide) (JValue.int 0) rfl (Or.inl rfl)).1

-- ===== C9: date duplication blocks =====

/-- Record whose departure date from Dubai is the whitespace-only
string " ": present, non-empty (truthy), yet nothing is written. -/
def c9BlankData : JValue :=
  JValue.obj [("trip_info",
    JValue.obj [("departure_date_from_dubai", JValue.str " ")])]

/-- C9 counterexample: with `departure_date_from_dubai = " "` — present
and non-empty, hence truthy — the fill writes no text at all (in
particular nothing at the `trip_start_date` and `arrival_date`
coordinates), because `insert_text` drops whitespace-only text. -/
theorem c9_whitespace_counterexample :
    get_nested_value c9BlankData "trip_info.departure_date_from_dubai" =
      some (JValue.str " ") ∧
    (JValue.str " ").truthy = true ∧
    fill_text_fields envNone c9BlankData = some [] :=
  ⟨rfl, rfl, by decide⟩

/-- C9 (amended): if `trip_info.departure_date_from_dubai` is present,
truthy, and non-blank after stripping, its text is written at both the
`trip_start_date` (328, 393) and `arrival_date` (72, 544) coordinates;
likewise `trip_info.arrival_date_to_dubai` at `trip_end_date` (420, 393)
and `departure_date` (328, 544); each source value independently follows
the same skip rule when absent or falsy; and these two blocks are part
of the output of every successful `fill_text_fields`, after the mapping
loop. -/
theorem c9_dup_date_fields (env : Env) (data : JValue) :
    (∀ v, get_nested_value data "trip_info.departure_date_from_dubai" =
        some v → v.truthy = true → pyStrip (pyStr v) ≠ "" →
      departure_dubai_ops data =
        [Op.insertText 328 393 (pyStr v) helvCfg FONT_SIZE,
         Op.insertText 72 544 (pyStr v) helvCfg FONT_SIZE]) ∧
    ((get_nested_value data "trip_info.departure_date_from_dubai" = none ∨
      ∃ v, get_nested_value data "trip_info.departure_date_from_dubai" =
          some v ∧ v.truthy = false) →
      departure_dubai_ops data = []) ∧
    (∀ v, get_nested_value data "trip_info.arrival_date_to_dubai" =
        some v → v.truthy = true → pyStrip (pyStr v) ≠ "" →
      arrival_dubai_ops data =
        [Op.insertText 420 393 (pyStr v) helvCfg FONT_SIZE,
         Op.insertText 328 544 (pyStr v) helvCfg FONT_SIZE]) ∧
    ((get_nested_value data "trip_info.arrival_date_to_dubai" = none ∨
      ∃ v, get_nested_value data "trip_info.arrival_date_to_dubai" =
          some v ∧ v.truthy = false) →
      arrival_dubai_ops data = []) ∧
    (∀ acc lab, accompany_ops env data = some acc →
      visa_label_ops env data = some lab →
      fill_text_fields env data = some (text_loop_ops data ++
        departure_dubai_ops data ++ arrival_dubai_ops data ++ acc ++ lab)) := by
  refine ⟨?_, ?_, ?_, ?_, ?_⟩
  · intro v hv htr hstrip
    have hne : pyStr v ≠ "" := by
      intro h0
      exact hstrip (by rw [h0]; rfl)
    have hstep : departure_dubai_ops data =
        insert_text 328 393 (pyStr v) FONT_SIZE ++
        insert_text 72 544 (pyStr v) FONT_SIZE := by
      unfold departure_dubai_ops
      rw [hv]
      simp only [htr]
      rfl
    rw [hstep]
    simp [insert_text, hne, hstrip]
  · intro hcase
    unfold departure_dubai_ops
    rcases hcase with hn | ⟨v, hv, hf⟩
    · rw [hn]
    · rw [hv]
      simp [hf]
  · intro v hv htr hstrip
    have hne : pyStr v ≠ "" := by
      intro h0
      exact hstrip (by rw [h0]; rfl)
    have hstep : arrival_dubai_ops data =
        insert_text 420 393 (pyStr v) FONT_SIZE ++
        insert_text 328 544 (pyStr v) FONT_SIZE := by
      unfold arrival_dubai_ops
      rw [hv]
      simp only [htr]
      rfl
    rw [hstep]
    simp [insert_text, hne, hstrip]
  · intro hcase
    unfold arrival_dubai_ops
    rcases hcase with hn | ⟨v, hv, hf⟩
    · rw [hn]
    · rw [hv]
      simp [hf]
  · intro acc lab hacc hlab
    simp [fill_text_fields, hacc, hlab]

/-- Record with both Dubai trip dates present and non-blank. -/
def c9Data : JValue :=
  JValue.obj [("trip_info",
    JValue.obj [("departure_date_from_dubai", JValue.str "12/12/2025"),
                ("arrival_date_to_dubai", JValue.str "30/01/2026")])]

theorem c9_dup_date_fields_witness :
    departure_dubai_ops c9Data =
      [Op.insertText 328 393 "12/12/2025" helvCfg FONT_SIZE,
       Op.insertText 72 544 "12/12/2025" helvCfg FONT_SIZE] ∧
    arrival_dubai_ops c9Data =
      [Op.insertText 420 393 "30/01/2026" helvCfg FONT_SIZE,
       Op.insertText 328 544 "30/01/2026" helvCfg FONT_SIZE] :=
  ⟨(c9_dup_date_fields envNone c9Data).1 (JValue.str "12/12/2025")
      rfl rfl (by decide),
   (c9_dup_date_fields envNone c9Data).2.2.1 (JValue.str "30/01/2026")
      rfl rfl (by decide)⟩

-- ===== C5: visa-type pricing label =====

theorem ne_empty_of_strip_ne {s : String} (h : pyStrip s ≠ "") :
    s ≠ "" :=
  fun h0 => h (by rw [h0]; rfl)

/-- C5: for a record whose `visa_info.type` is a non-empty string, the
lowercased value is looked up in the `VISA_TYPE_LABELS` table; on a
match the (non-blank) label is written at the `visa_type_label`
coordinate with the bottom-label font size, and on no match nothing is
written for that field. -/
theorem c5_visa_type_label (env : Env) (data : JValue) (s : String)
    (hget : get_nested_value data "visa_info.type" = some (JValue.str s))
    (hne : s ≠ "") :
    ∃ l, visa_label_ops env data = some l ∧
      (lookupStr env.visaTypeLabels (pyLower s) = none → l = []) ∧
      ∀ lab, lookupStr env.visaTypeLabels (pyLower s) = some lab →
        pyStrip lab ≠ "" →
        l = [Op.insertText 60 700 lab helvCfg BOTTOM_LABEL_FONT_SIZE] := by
  have hco : lookupCoord "visa_type_label" = some (60, 700) := by decide
  rcases hl : lookupStr env.visaTypeLabels (pyLower s) with _ | lab
  · refine ⟨[], ?_, fun _ => rfl, fun lab hlab _ => Option.noConfusion hlab⟩
    simp [visa_label_ops, hget, hco, hl, JValue.truthy, hne]
  · refine ⟨insert_text 60 700 lab BOTTOM_LABEL_FONT_SIZE, ?_,
      fun h => Option.noConfusion h, ?_⟩
    · simp [visa_label_ops, hget, hco, hl, JValue.truthy, hne]
    · intro lab' hlab' hstrip
      injection hlab' with hlabeq
      subst hlabeq
      simp [insert_text, ne_empty_of_strip_ne hstrip, hstrip]

/-- Environment whose (spec-modelled) label table maps the
multiple-entry visa type to a pricing label. -/
def c5Env : Env :=
  { envNone with
      visaTypeLabels := [("multiple_entry", "Multiple Entry - USD 52")] }

/-- Record with `visa_info.type = "Multiple_Entry"`. -/
def c5Data : JValue :=
  JValue.obj [("visa_info", JValue.obj [("type", JValue.str "Multiple_Entry")])]

theorem c5_visa_type_label_witness :
    ∃ l, visa_label_ops c5Env c5Data = some l ∧
      (lookupStr c5Env.visaTypeLabels (pyLower "Multiple_Entry") = none →
        l = []) ∧
      ∀ lab, lookupStr c5Env.visaTypeLabels (pyLower "Multiple_Entry") =
          some lab → pyStrip lab ≠ "" →
        l = [Op.insertText 60 700 lab helvCfg BOTTOM_LABEL_FONT_SIZE] :=
  c5_visa_type_label c5Env c5Data "Multiple_Entry" rfl (by decide)

-- ===== C7: accompaniment text with translation unavailable =====

theorem mem_insert_text {op : Op} {x y : Int} {t : String} {sz : Nat}
    (h : op ∈ insert_text x y t sz) :
    op = Op.insertText x y t helvCfg sz := by
  unfold insert_text at h
  split at h
  · simpa using h
  · simp at h

theorem text_field_entry_shape {data : JValue} {q : String × String}
    {op : Op} (h : op ∈ text_field_entry data q) :
    ∃ v xy, get_nested_value data q.1 = some v ∧
      lookupCoord q.2 = some xy ∧
      op = Op.insertText xy.1 xy.2 (pyStr v) helvCfg FONT_SIZE := by
  unfold text_field_entry at h
  rcases hg : get_nested_value data q.1 with _ | v
  · simp [hg] at h
  · simp only [hg] at h
    split at h
    · rcases hc : lookupCoord q.2 with _ | xy
      · simp [hc] at h
      · simp only [hc] at h
        exact ⟨v, xy, rfl, rfl, mem_insert_text h⟩
    · simp at h

theorem departure_dubai_ops_shape {data : JValue} {op : Op}
    (h : op ∈ departure_dubai_ops data) :
    ∃ t, op = Op.insertText 328 393 t helvCfg FONT_SIZE ∨
      op = Op.insertText 72 544 t helvCfg FONT_SIZE := by
  unfold departure_dubai_ops at h
  rcases hg : get_nested_value data "trip_info.departure_date_from_dubai"
    with _ | v
  · simp [hg] at h
  · simp only [hg] at h
    split at h
    · have e1 : lookupCoord "trip_start_date" = some (328, 393) := by decide
      have e2 : lookupCoord "arrival_date" = some (72, 544) := by decide
      simp only [e1, e2] at h
      rcases List.mem_append.mp h with h' | h'
      · exact ⟨pyStr v, Or.inl (mem_insert_text h')⟩
      · exact ⟨pyStr v, Or.inr (mem_insert_text h')⟩
    · simp at h

theorem arrival_dubai_ops_shape {data : JValue} {op : Op}
    (h : op ∈ arrival_dubai_ops data) :
    ∃ t, op = Op.insertText 420 393 t helvCfg FONT_SIZE ∨
      op = Op.insertText 328 544 t helvCfg FONT_SIZE := by
  unfold arrival_dubai_ops at h
  rcases hg : get_nested_value data "trip_info.arrival_date_to_dubai"
    with _ | v
  · simp [hg] at h
  · simp only [hg] at h
    split at h
    · have e1 : lookupCoord "trip_end_date" = some (420, 393) := by decide
      have e2 : lookupCoord "departure_date" = some (328, 544) := by decide
      simp only [e1, e2] at h
      rcases List.mem_append.mp h with h' | h'
      · exact ⟨pyStr v, Or.inl (mem_insert_text h')⟩
      · exact ⟨pyStr v, Or.inr (mem_insert_text h')⟩
    · simp at h

theorem visa_label_ops_shape {env : Env} {data : JValue} {lab : List Op}
    {op : Op} (hl : visa_label_ops env data = some lab) (h : op ∈ lab) :
    ∃ t, op = Op.insertText 60 700 t helvCfg BOTTOM_LABEL_FONT_SIZE := by
  unfold visa_label_ops at hl
  rcases hg : get_nested_value data "visa_info.type" with _ | v
  · rw [hg] at hl
    injection hl with hlab
    rw [← hlab] at h
    simp at h
  · simp only [hg] at hl
    split at hl
    · cases v with
      | str s =>
          rcases hlk : lookupStr env.visaTypeLabels (pyLower s) with _ | labt
          · simp only [hlk] at hl
            injection hl with hlab
            rw [← hlab] at h
            simp at h
          · have hco : lookupCoord "visa_type_label" = some (60, 700) := by
              decide
            simp only [hlk, hco] at hl
            injection hl with hlab
            rw [← hlab] at h
            exact ⟨labt, mem_insert_text h⟩
      | int n => exact Option.noConfusion hl
      | bool b => exact Option.noConfusion hl
      | null => exact Option.noConfusion hl
      | obj l => exact Option.noConfusion hl
    · injection hl with hlab
      rw [← hlab] at h
      simp at h

theorem coords_not_accompany :
    ∀ q ∈ TEXT_FIELD_MAPPINGS, q.1 ≠ "accompanied_by_arabic" →
      lookupCoord q.2 ≠ some (450, 750) := by decide

theorem accompany_ops_untranslated {env : Env} {data : JValue} {s : String}
    (hs : get_nested_value data "accompany_name" = some (JValue.str s))
    (hne : s ≠ "") (htr : env.translationSupport = false)
    (hsh : env.arabicSupport = false)
    (hstrip : pyStrip (ARABIC_ACCOMPANIED_BY_PREF ++ s) ≠ "")
    (hfont : (tryFontAttempts env font_attempts).isSome ∨
      env.insertOk helvCfg = true) :
    ∃ fc, accompany_ops env data =
      some [Op.insertText 450 750 (ARABIC_ACCOMPANIED_BY_PREF ++ s) fc
        BOTTOM_LABEL_FONT_SIZE] := by
  have htrans : translate_to_arabic env s = s := by
    simp [translate_to_arabic, htr]
  have hco : lookupCoord "accompanied_by_arabic" = some (450, 750) := by
    decide
  have hT : ARABIC_ACCOMPANIED_BY_PREF ++ s ≠ "" := ne_empty_of_strip_ne hstrip
  have hreshape : reshape_arabic_text env (ARABIC_ACCOMPANIED_BY_PREF ++ s) =
      ARABIC_ACCOMPANIED_BY_PREF ++ s := by
    simp [reshape_arabic_text, hsh]
  have hacc : accompany_ops env data =
      some (insert_arabic_text env 450 750 (ARABIC_ACCOMPANIED_BY_PREF ++ s)
        BOTTOM_LABEL_FONT_SIZE) := by
    simp [accompany_ops, hs, hco, JValue.truthy, hne, htrans]
  rw [hacc]
  rcases hf : tryFontAttempts env font_attempts with _ | c
  · rcases hfont with hsome | hh
    · rw [hf] at hsome
      simp at hsome
    · exact ⟨helvCfg, by simp [insert_arabic_text, hT, hstrip, hreshape,
        hf, hh]⟩
  · exact ⟨c, by simp [insert_arabic_text, hT, hstrip, hreshape, hf]⟩

/-- C7: if the record has a non-empty string `accompany_name`, the
translation capability is off, the shaping capability is off, and some
font attempt (or the base-font fallback) succeeds, then the fill writes
exactly one text at the `accompanied_by_arabic` coordinate (450, 750),
and that text is the fixed Arabic literal immediately followed by the
original untranslated name. -/
theorem c7_accompany_untranslated (env : Env) (data : JValue) (s : String)
    (ops : List Op)
    (hs : get_nested_value data "accompany_name" = some (JValue.str s))
    (hne : s ≠ "")
    (htr : env.translationSupport = false)
    (hsh : env.arabicSupport = false)
    (hstrip : pyStrip (ARABIC_ACCOMPANIED_BY_PREF ++ s) ≠ "")
    (hfont : (tryFontAttempts env font_attempts).isSome ∨
      env.insertOk helvCfg = true)
    (hnodirect : get_nested_value data "accompanied_by_arabic" = none)
    (hfill : fill_text_fields env data = some ops) :
    (∃ fc, Op.insertText 450 750 (ARABIC_ACCOMPANIED_BY_PREF ++ s) fc
        BOTTOM_LABEL_FONT_SIZE ∈ ops) ∧
    ∀ x y t fc sz, Op.insertText x y t fc sz ∈ ops →
      x = 450 → y = 750 →
      t = ARABIC_ACCOMPANIED_BY_PREF ++ s ∧ sz = BOTTOM_LABEL_FONT_SIZE := by
  obtain ⟨fc₀, hacc⟩ := accompany_ops_untranslated hs hne htr hsh hstrip hfont
  simp only [fill_text_fields, bind, Option.bind_eq_some, pure,
    Option.some.injEq] at hfill
  obtain ⟨acc, hacc', lab, hlab, hops⟩ := hfill
  rw [hacc] at hacc'
  injection hacc' with hacceq
  subst hacceq
  subst hops
  constructor
  · exact ⟨fc₀, by simp⟩
  · intro x y t fc sz hmem hx hy
    subst hx
    subst hy
    rcases List.mem_append.mp hmem with hmem1 | hLab
    · rcases List.mem_append.mp hmem1 with hmem2 | hAcc
      · rcases List.mem_append.mp hmem2 with hmem3 | hA
        · rcases List.mem_append.mp hmem3 with hL | hD
          · obtain ⟨q, hq, hopq⟩ := List.mem_flatMap.mp hL
            obtain ⟨v, xy, hgv, hcq, hopeq⟩ := text_field_entry_shape hopq
            rcases xy with ⟨a, b⟩
            injection hopeq with e1 e2 e3 e4 e5
            subst e1
            subst e2
            have hq1 : q.1 = "accompanied_by_arabic" := by
              by_contra hq1
              exact coords_not_accompany q hq hq1 hcq
            rw [hq1, hnodirect] at hgv
            exact Option.noConfusion hgv
          · obtain ⟨t', ht'⟩ := departure_dubai_ops_shape hD
            rcases ht' with he | he <;>
              (injection he with e1 e2 e3 e4 e5; exact absurd e1 (by decide))
        · obtain ⟨t', ht'⟩ := arrival_dubai_ops_shape hA
          rcases ht' with he | he <;>
            (injection he with e1 e2 e3 e4 e5; exact absurd e1 (by decide))
      · have he := List.mem_singleton.mp hAcc
        injection he with e1 e2 e3 e4 e5
        exact ⟨e3, e5⟩
    · obtain ⟨t', ht'⟩ := visa_label_ops_shape hlab hLab
      injection ht' with e1 e2 e3 e4 e5
      exact absurd e1 (by decide)

/-- Record with `accompany_name = "Mary"` and nothing else. -/
def c7Data : JValue :=
  JValue.obj [("accompany_name", JValue.str "Mary")]

/-- Environment with translation and shaping off but a working base
font, as on a machine with none of the listed font files installed. -/
def c7Env : Env :=
  { translationSupport := false
    arabicSupport := false
    translate := fun _ => Except.error "unavailable"
    reshape := id
    bidi := id
    insertOk := fun fc => fc.fontfile.isNone && fc.fontname == "helv"
    visaTypeLabels := [] }

theorem c7_accompany_untranslated_witness :
    (∃ fc, Op.insertText 450 750 (ARABIC_ACCOMPANIED_BY_PREF ++ "Mary") fc
        BOTTOM_LABEL_FONT_SIZE ∈
      [Op.insertText 450 750 (ARABIC_ACCOMPANIED_BY_PREF ++ "Mary") helvCfg
        BOTTOM_LABEL_FONT_SIZE]) ∧
    ∀ x y t fc sz, Op.insertText x y t fc sz ∈
        [Op.insertText 450 750 (ARABIC_ACCOMPANIED_BY_PREF ++ "Mary")
          helvCfg BOTTOM_LABEL_FONT_SIZE] →
      x = 450 → y = 750 →
      t = ARABIC_ACCOMPANIED_BY_PREF ++ "Mary" ∧
        sz = BOTTOM_LABEL_FONT_SIZE :=
  c7_accompany_untranslated c7Env c7Data "Mary"
    [Op.insertText 450 750 (ARABIC_ACCOMPANIED_BY_PREF ++ "Mary") helvCfg
      BOTTOM_LABEL_FONT_SIZE]
    rfl (by decide) rfl rfl (by decide) (Or.inr rfl) rfl (by decide)
